import Mathlib

/-!
A shallow embedding of the core of the TheTronpickMaster repository
(src/modules/RoulettePlayer.js and src/Orchestrator.js), together with
proofs about the Martingale progression engine, the seed-rotation and
error-budget logic, the withdrawal pause/resume controller, the faucet
timing gate, and the checkpoint persistence round trip.

Conventions of the embedding:
* monetary minor-unit stakes and PnL are `Int` (they are exact integers in
  the source), TRX balances are `Rat` (decimal values such as 16.6383),
  timestamps are `Int` milliseconds;
* the browser/DOM side effects of each step are abstracted into the
  value the source function returns from that step (success, the logical
  failure code -1/false/null, or a thrown exception reaching the
  cycle-level catch block), exactly mirroring the control flow of the
  JavaScript; module-level mutable variables become explicit state records.
-/

namespace Tronpick

/-! ## RoulettePlayer.js: constants and pure helpers -/

/-- `const BASE_PROGRESSION = Array.from({ length: 14 }, (_, i) => 100 * (2 ** i))`
(RoulettePlayer.js line 53): the stake ladder for levels 0 to 13. -/
def BASE_PROGRESSION : List Int :=
  (List.range 14).map (fun i => 100 * 2 ^ i)

/-- `BASE_PROGRESSION[level]` as used by the source (levels 0..13;
out-of-range access, impossible in the source flow, defaults to 0). -/
def stakeAt (level : Nat) : Int :=
  BASE_PROGRESSION.getD level 0

/-- `const RED_NUMBERS = new Set([...])` (RoulettePlayer.js line 57). -/
def RED_NUMBERS : List Nat :=
  [1, 3, 5, 7, 9, 12, 14, 16, 18, 19, 21, 23, 25, 27, 30, 32, 34, 36]

/-- `const BLACK_NUMBERS = new Set([...])` (RoulettePlayer.js line 58). -/
def BLACK_NUMBERS : List Nat :=
  [2, 4, 6, 8, 10, 11, 13, 15, 17, 20, 22, 24, 26, 28, 29, 31, 33, 35]

/-- The two betting targets chosen per cycle (`'red' | 'black'`). -/
inductive Target where
  | red
  | black
deriving DecidableEq

/-- `isWin(result, target)` (RoulettePlayer.js lines 726-740): `null` and 0
are special-cased to a loss before the colour sets are consulted. -/
def isWin (result : Option Nat) (target : Target) : Bool :=
  match result with
  | none => false
  | some 0 => false
  | some n =>
    match target with
    | .red => RED_NUMBERS.contains n
    | .black => BLACK_NUMBERS.contains n

/-- `calculateCycleProfit(winLevel, cumulative)` (RoulettePlayer.js lines
748-759): `2 * BASE_PROGRESSION[winLevel] - cumulative` on a win,
`-cumulative` on a level-13 loss. -/
def calculateCycleProfit (winLevel : Option Nat) (cumulative : Int) : Int :=
  match winLevel with
  | some lvl => 2 * stakeAt lvl - cumulative
  | none => -cumulative

/-! ## RoulettePlayer.js: module state and one cycle -/

/-- The module-level mutable variables of RoulettePlayer.js (lines 61-65):
`verificationErrorCount`, `spinErrorCount`, `prevWinLevel`, `pnl`,
`cycleCount`. -/
structure RState where
  verificationErrorCount : Nat
  spinErrorCount : Nat
  prevWinLevel : Option Nat
  pnl : Int
  cycleCount : Nat
deriving DecidableEq

/-- What the external interaction at one ladder level produced, as seen by
`playOneCycle`: the deposit helpers returned -1 (`depositFail`), `spin()`
returned false (`spinFail`), an exception escaped to the cycle-level
`catch` block (`thrown`), or deposit and spin succeeded and `getResult()`
returned the given value (`spun r`, with `r = none` for an unreadable
result). -/
inductive StepEvent where
  | depositFail
  | spinFail
  | thrown
  | spun (result : Option Nat)
deriving DecidableEq

/-- The value `playOneCycle` resolves with (RoulettePlayer.js lines
916-919): `{outcome:'win', level}`, `{outcome:'loss'}`, or
`{outcome:'error', ...}`. -/
inductive CycleOutcome where
  | win (level : Nat)
  | loss
  | error
deriving DecidableEq

/-- The body of the ladder loop of `playOneCycle` (RoulettePlayer.js lines
949-1065), uniform over its unrolled level 0 and its `for` loop over
levels 1..13.  `fuel` is the number of levels still allowed (14 at entry,
the `fuel = 0` branch is the fall-through loss at level 13): per level the
source deposits (on -1: increment `verificationErrorCount`, return error),
adds `BASE_PROGRESSION[level]` to `cumulative`, spins (on false: increment
`spinErrorCount`, return error), reads the result and tests `isWin`;
a win resets both error counters and adds
`calculateCycleProfit(level, cumulative)` to `pnl` WITHOUT touching
`prevWinLevel` (the source's critical fix); a loss advances one level;
exhausting all 14 levels resets both counters and adds the loss to `pnl`;
an exception reaching the cycle-level `catch` (lines 1066-1078) returns
the error outcome with no counter change at all. -/
def playFrom (events : Nat → StepEvent) (target : Target) :
    Nat → Nat → Int → RState → RState × CycleOutcome
  | 0, _, cumulative, s =>
    ({ s with verificationErrorCount := 0, spinErrorCount := 0,
              pnl := s.pnl + calculateCycleProfit none cumulative },
     .loss)
  | fuel + 1, level, cumulative, s =>
    match events level with
    | .thrown => (s, .error)
    | .depositFail =>
      ({ s with verificationErrorCount := s.verificationErrorCount + 1 }, .error)
    | .spinFail =>
      ({ s with spinErrorCount := s.spinErrorCount + 1 }, .error)
    | .spun r =>
      let cum2 := cumulative + stakeAt level
      if isWin r target then
        ({ s with verificationErrorCount := 0, spinErrorCount := 0,
                  pnl := s.pnl + calculateCycleProfit (some level) cum2 },
         .win level)
      else
        playFrom events target fuel (level + 1) cum2 s

/-- `playOneCycle()` (RoulettePlayer.js lines 921-1079): increments
`cycleCount`, then walks the ladder from level 0 with `cumulative = 0`. -/
def playOneCycle (events : Nat → StepEvent) (target : Target) (s : RState) :
    RState × CycleOutcome :=
  playFrom events target 14 0 0 { s with cycleCount := s.cycleCount + 1 }

/-- The streak-breaking test of `handleSeedAndRefresh` case 3
(RoulettePlayer.js line 1137): `previousLevelBeforeCheck === null ||
previousLevelBeforeCheck < 3`. -/
def streakBroken (prev : Option Nat) : Bool :=
  match prev with
  | none => true
  | some p => p < 3

/-- `handleSeedAndRefresh(cycleResult)` (RoulettePlayer.js lines
1089-1184).  Returned Bool = `refreshPerformed` (a seed change was
attempted and a forced page refresh performed).  Case 1: with
`verificationErrorCount >= 5`, trip, reset that counter and
`prevWinLevel`.  Case 2: otherwise with `spinErrorCount >= 3`, trip,
reset that counter and `prevWinLevel`.  Case 3: otherwise a win at level
>= 3 whose stored `prevWinLevel` (captured before any update) passes
`streakBroken` trips and resets `prevWinLevel` to null; when no refresh
is performed, `prevWinLevel` is only then committed: to the win level on
a win, to null on a loss, unchanged on an error outcome. -/
def handleSeedAndRefresh (s : RState) (cycleResult : CycleOutcome) :
    RState × Bool :=
  if 5 ≤ s.verificationErrorCount then
    ({ s with verificationErrorCount := 0, prevWinLevel := none }, true)
  else if 3 ≤ s.spinErrorCount then
    ({ s with spinErrorCount := 0, prevWinLevel := none }, true)
  else
    match cycleResult with
    | .win lvl =>
      if 3 ≤ lvl ∧ streakBroken s.prevWinLevel then
        ({ s with prevWinLevel := none }, true)
      else
        ({ s with prevWinLevel := some lvl }, false)
    | .loss => ({ s with prevWinLevel := none }, false)
    | .error => (s, false)

/-- `getCurrentPnL()` (RoulettePlayer.js lines 1190-1192). -/
def getCurrentPnL (s : RState) : Int :=
  s.pnl

/-- `resetPnL()` (RoulettePlayer.js lines 1198-1201). -/
def resetPnL (s : RState) : RState :=
  { s with pnl := 0 }

/-- `resetState()` (RoulettePlayer.js lines 1207-1212). -/
def resetState (s : RState) : RState :=
  { s with verificationErrorCount := 0, spinErrorCount := 0, prevWinLevel := none }

/-- Cumulative stake of the levels `first, first+1, ..., first+count`
(the running `cumulative` variable of `playOneCycle` over a stretch of the
ladder). -/
def cumStake (first : Nat) : Nat → Int
  | 0 => stakeAt first
  | count + 1 => stakeAt first + cumStake (first + 1) count

/-! ## Orchestrator.js: constants, states and helpers -/

/-- `const State = {...}` (Orchestrator.js lines 19-44). -/
inductive MState where
  | INITIALIZING
  | NEEDS_CONFIG
  | LOADING_STATE
  | LAUNCHING_BROWSER
  | CHECKING_SESSION
  | NEEDS_LOGIN
  | CHECKING_EMAIL_VERIFICATION_STATUS
  | NEEDS_SIGNUP
  | NEEDS_EMAIL_VERIFICATION_REGISTRATION
  | AWAITING_EMAIL_LINK
  | NEEDS_BONUS_CLAIM
  | SAVING_SETUP_STATE
  | READY_TO_PLAY
  | PLAYING_ROULETTE
  | PAUSED_FOR_FAUCET
  | CLAIMING_HOURLY_FAUCET
  | WITHDRAWAL_THRESHOLD_REACHED
  | PAUSED_FOR_MANUAL_WITHDRAWAL
  | RESUMING_AFTER_WITHDRAWAL
  | AUTHENTICATION_COMPLETE
  | ERROR
  | STOPPING
  | STOPPED
deriving DecidableEq

/-- `const FAUCET_INTERVAL_MS = 62 * 60 * 1000` (Orchestrator.js line 61). -/
def FAUCET_INTERVAL_MS : Int := 62 * 60 * 1000

/-- `const WITHDRAWAL_TRIGGER = 16.638300` (Orchestrator.js line 69). -/
def WITHDRAWAL_TRIGGER : Rat := 166383 / 10000

/-- `const BALANCE_TO_KEEP = 1.638300` (Orchestrator.js line 70). -/
def BALANCE_TO_KEEP : Rat := 16383 / 10000

/-- The fixed delta of `detectManualWithdrawal`
(`const WITHDRAWAL_DETECTION_THRESHOLD = 10.0`, Orchestrator.js line 806). -/
def WITHDRAWAL_DETECTION_THRESHOLD : Rat := 10

/-- What one balance read of the page yields before `checkBalance`'s error
handling: a parsed decimal value, or a failure (page missing / selector
error / unparsable text). -/
inductive BalanceRead where
  | ok (value : Rat)
  | readError
deriving DecidableEq

/-- `checkBalance()` (Orchestrator.js lines 167-184): returns the parsed
balance, and 0 whenever the page is unavailable or the read throws. -/
def checkBalance (read : BalanceRead) : Rat :=
  match read with
  | .ok value => value
  | .readError => 0

/-- `isTimeForFaucetClaim()` (Orchestrator.js lines 610-635): true
immediately when `lastFaucetClaimTime` is null, else true exactly when
`now - lastFaucetClaimTime >= FAUCET_INTERVAL_MS`. -/
def isTimeForFaucetClaim (lastFaucetClaimTime : Option Int) (now : Int) : Bool :=
  match lastFaucetClaimTime with
  | none => true
  | some t => FAUCET_INTERVAL_MS ≤ now - t

/-- `isReadyForWithdrawal()` (Orchestrator.js lines 641-651). -/
def isReadyForWithdrawal (read : BalanceRead) : Bool :=
  WITHDRAWAL_TRIGGER ≤ checkBalance read

/-- What `signIn()` (AuthHandler) does as observed by the `NEEDS_LOGIN`
case: resolve true, resolve false (logical failure: wrong credentials /
10s timeout), or throw (technical failure). -/
inductive SignInResult where
  | success
  | failure
  | threw
deriving DecidableEq

/-- The `case State.NEEDS_LOGIN` transition (Orchestrator.js lines
942-961): true goes on to the verification check, false (logical failure)
routes to signup, a thrown error routes to ERROR and never to signup. -/
def nextStateAfterLogin (r : SignInResult) : MState :=
  match r with
  | .success => .CHECKING_EMAIL_VERIFICATION_STATUS
  | .failure => .NEEDS_SIGNUP
  | .threw => .ERROR

/-! ## Orchestrator.js: manual-withdrawal pause controller -/

/-- The module-level withdrawal-control variables (Orchestrator.js lines
86-88): `withdrawalThresholdBalance`, `systemPausedForWithdrawal`,
`manualWithdrawalDetected`. -/
structure WithdrawalCtl where
  withdrawalThresholdBalance : Option Rat
  systemPausedForWithdrawal : Bool
  manualWithdrawalDetected : Bool
deriving DecidableEq

/-- `detectManualWithdrawal()` (Orchestrator.js lines 797-835): inert
unless paused with a recorded arming balance; computes
`balanceReduction = withdrawalThresholdBalance - checkBalance()` and, when
it is at least 10 TRX, clears the pause flag and the recorded balance,
sets `manualWithdrawalDetected` and reports true. -/
def detectManualWithdrawal (c : WithdrawalCtl) (read : BalanceRead) :
    WithdrawalCtl × Bool :=
  match c.systemPausedForWithdrawal, c.withdrawalThresholdBalance with
  | true, some armBalance =>
    let currentBalance := checkBalance read
    let balanceReduction := armBalance - currentBalance
    if WITHDRAWAL_DETECTION_THRESHOLD ≤ balanceReduction then
      ({ withdrawalThresholdBalance := none,
         systemPausedForWithdrawal := false,
         manualWithdrawalDetected := true }, true)
    else
      (c, false)
  | _, _ => (c, false)

/-- The slice of orchestrator state that the withdrawal pause/resume path
touches: the machine state, the withdrawal-control variables and the
RoulettePlayer module state (whose `pnl` is reset on resume). -/
structure OrchState where
  mstate : MState
  ctl : WithdrawalCtl
  player : RState
deriving DecidableEq

/-- The withdrawal check at the top of `case State.PLAYING_ROULETTE`
(Orchestrator.js lines 1221-1228), reached when the faucet gate did not
fire: if `isReadyForWithdrawal()` then `withdrawalThresholdBalance` is
recorded from a second `checkBalance()` read, the pause flag is set, and
the machine moves to WITHDRAWAL_THRESHOLD_REACHED; otherwise the tick
goes on to play a cycle with nothing armed. -/
def playingWithdrawalCheck (st : OrchState) (read1 read2 : BalanceRead) :
    OrchState :=
  if isReadyForWithdrawal read1 then
    { st with
      ctl := { st.ctl with
               withdrawalThresholdBalance := some (checkBalance read2),
               systemPausedForWithdrawal := true },
      mstate := .WITHDRAWAL_THRESHOLD_REACHED }
  else
    st

/-- `case State.WITHDRAWAL_THRESHOLD_REACHED` (Orchestrator.js lines
1336-1373): sends a notification and moves to
PAUSED_FOR_MANUAL_WITHDRAWAL (also on a notification error). -/
def thresholdReachedTick (st : OrchState) : OrchState :=
  { st with mstate := .PAUSED_FOR_MANUAL_WITHDRAWAL }

/-- The withdrawal-detection part of `case
State.PAUSED_FOR_MANUAL_WITHDRAWAL` (Orchestrator.js lines 1375-1406):
on detection move to RESUMING_AFTER_WITHDRAWAL, otherwise stay paused
(faucet claims aside). -/
def pausedForWithdrawalTick (st : OrchState) (read : BalanceRead) :
    OrchState :=
  let r := detectManualWithdrawal st.ctl read
  if r.2 then
    { st with ctl := r.1, mstate := .RESUMING_AFTER_WITHDRAWAL }
  else
    { st with ctl := r.1, mstate := .PAUSED_FOR_MANUAL_WITHDRAWAL }

/-- The non-throwing path of `case State.RESUMING_AFTER_WITHDRAWAL`
(Orchestrator.js lines 1408-1439): `resetPnL()` on the RoulettePlayer and
back to PLAYING_ROULETTE.  (In the source, a notification exception skips
the `resetPnL()` call in the catch branch.) -/
def resumingAfterWithdrawalTick (st : OrchState) : OrchState :=
  { st with player := resetPnL st.player, mstate := .PLAYING_ROULETTE }

/-! ## Orchestrator.js: checkpoint persistence (appState.json)

JSON round-trips the booleans and numbers of `appState` exactly; the
only transformation the source applies is on the two timestamp fields,
through the runtime pair `new Date(t).toISOString()` /
`new Date(s).getTime()`.  That external pair is modelled by
`ISODateString`: an ISO-8601 date string determines and is determined by
its millisecond timestamp (the two calls are mutually inverse for every
representable date), it is never empty, and a non-empty string is truthy
in JavaScript. -/

/-- Model of a JavaScript ISO-8601 date string, identified with the
millisecond timestamp it denotes. -/
structure ISODateString where
  ms : Int
deriving DecidableEq

/-- Model of `new Date(t).toISOString()`. -/
def toISOString (t : Int) : ISODateString := ⟨t⟩

/-- Model of `new Date(s).getTime()` on an ISO date string. -/
def dateGetTime (s : ISODateString) : Int := s.ms

/-- The in-memory global `appState` (Orchestrator.js lines 48-55). -/
structure AppState where
  isInitialSetupComplete : Bool
  lastFaucetClaimTime : Option Int
  verificationAttempts : Int
  lastBonusClaimTime : Option Int
  rouletteCycles : Int
  totalPnL : Rat
deriving DecidableEq

/-- The JSON record written to appState.json by `saveStateToFile`
(Orchestrator.js lines 146-153): `appState` with the timestamps replaced
by ISO strings (or null) plus the two withdrawal-control variables. -/
structure StoredState where
  isInitialSetupComplete : Bool
  lastFaucetClaimTime : Option ISODateString
  verificationAttempts : Int
  lastBonusClaimTime : Option ISODateString
  rouletteCycles : Int
  totalPnL : Rat
  withdrawalThresholdBalance : Option Rat
  systemPausedForWithdrawal : Bool
deriving DecidableEq

/-- The timestamp serialization of `saveStateToFile`:
`t ? new Date(t).toISOString() : null`.  A JavaScript number is falsy
exactly when it is 0 (or NaN), so the timestamp 0 is written as null. -/
def serializeClaimTime (t : Option Int) : Option ISODateString :=
  match t with
  | some v => if v = 0 then none else some (toISOString v)
  | none => none

/-- The timestamp revival of `loadStateFromFile`:
`if (x) x = new Date(x).getTime()`.  An ISO date string is non-empty,
hence truthy, so a stored string is always parsed and null stays null. -/
def parseClaimTime (t : Option ISODateString) : Option Int :=
  match t with
  | some s => some (dateGetTime s)
  | none => none

/-- `saveStateToFile()` (Orchestrator.js lines 143-160). -/
def saveStateToFile (a : AppState) (withdrawalThresholdBalance : Option Rat)
    (systemPausedForWithdrawal : Bool) : StoredState :=
  { isInitialSetupComplete := a.isInitialSetupComplete
    lastFaucetClaimTime := serializeClaimTime a.lastFaucetClaimTime
    verificationAttempts := a.verificationAttempts
    lastBonusClaimTime := serializeClaimTime a.lastBonusClaimTime
    rouletteCycles := a.rouletteCycles
    totalPnL := a.totalPnL
    withdrawalThresholdBalance := withdrawalThresholdBalance
    systemPausedForWithdrawal := systemPausedForWithdrawal }

/-- `loadStateFromFile()` (Orchestrator.js lines 95-138): the parsed file
replaces `appState` wholesale, then the two timestamp fields are revived;
the undefined-field defaults never apply to a file that
`saveStateToFile` wrote, because it writes every field. -/
def loadStateFromFile (d : StoredState) : AppState :=
  { isInitialSetupComplete := d.isInitialSetupComplete
    lastFaucetClaimTime := parseClaimTime d.lastFaucetClaimTime
    verificationAttempts := d.verificationAttempts
    lastBonusClaimTime := parseClaimTime d.lastBonusClaimTime
    rouletteCycles := d.rouletteCycles
    totalPnL := d.totalPnL }

/-! ## Helper lemmas -/

/-- The ladder stake at every in-range level is `100 * 2 ^ level`. -/
theorem stakeAt_eq : ∀ i, i < 14 → stakeAt i = 100 * 2 ^ i := by decide

/-- Walking the whole ladder from level 0 through level `i` costs
`100 * (2^(i+1) - 1)` minor units. -/
theorem cumStake_from_zero : ∀ i, i < 14 → cumStake 0 i = 100 * (2 ^ (i + 1) - 1) := by
  decide

/-- At every in-range win level, the profit of a full walk from level 0 is
one base stake. -/
theorem calculateCycleProfit_cumStake :
    ∀ i, i < 14 → calculateCycleProfit (some i) (cumStake 0 i) = 100 := by
  decide

/-- A ladder walk that loses at levels `level..level+d-1` and wins at
`level+d` ends as a win at `level+d`, resets both error counters, and
credits `calculateCycleProfit` of the accumulated stakes; `prevWinLevel`,
`cycleCount` and the rest of the state are untouched. -/
theorem playFrom_lose_then_win (events : Nat → StepEvent) (t : Target) :
    ∀ (d fuel level : Nat) (cumulative : Int) (s : RState),
      d < fuel →
      (∀ j, level ≤ j → j < level + d →
        ∃ r, events j = .spun r ∧ isWin r t = false) →
      (∃ r, events (level + d) = .spun r ∧ isWin r t = true) →
      playFrom events t fuel level cumulative s =
        ({ s with verificationErrorCount := 0, spinErrorCount := 0,
                  pnl := s.pnl + calculateCycleProfit (some (level + d))
                           (cumulative + cumStake level d) },
         .win (level + d)) := by
  intro d
  induction d with
  | zero =>
    intro fuel level cumulative s hfuel hlose hwin
    obtain ⟨r, hev, hw⟩ := hwin
    cases fuel with
    | zero => omega
    | succ f =>
      simp only [Nat.add_zero] at hev hw
      simp [playFrom, hev, hw, cumStake]
  | succ d ih =>
    intro fuel level cumulative s hfuel hlose hwin
    cases fuel with
    | zero => omega
    | succ f =>
      obtain ⟨r, hev, hw⟩ := hlose level (Nat.le_refl _) (by omega)
      have hrec : playFrom events t (f + 1) level cumulative s =
          playFrom events t f (level + 1) (cumulative + stakeAt level) s := by
        simp [playFrom, hev, hw]
      rw [hrec]
      have hlose2 : ∀ j, level + 1 ≤ j → j < (level + 1) + d →
          ∃ r, events j = .spun r ∧ isWin r t = false := by
        intro j h1 h2
        exact hlose j (by omega) (by omega)
      have hwin2 : ∃ r, events ((level + 1) + d) = .spun r ∧ isWin r t = true := by
        have : (level + 1) + d = level + (d + 1) := by omega
        rw [this]
        exact hwin
      have := ih f (level + 1) (cumulative + stakeAt level) s (by omega) hlose2 hwin2
      rw [this]
      have hlvl : (level + 1) + d = level + (d + 1) := by omega
      have hcum : cumulative + stakeAt level + cumStake (level + 1) d =
          cumulative + cumStake level (d + 1) := by
        rw [cumStake]
        ring
      rw [hlvl, hcum]

/-- Every ladder walk either ends in the error outcome or (on a win or a
completed loss at level 13) leaves both error counters reset to 0. -/
theorem playFrom_success_resets (events : Nat → StepEvent) (t : Target) :
    ∀ (fuel level : Nat) (cumulative : Int) (s : RState),
      (playFrom events t fuel level cumulative s).2 = .error ∨
      ((playFrom events t fuel level cumulative s).1.verificationErrorCount = 0 ∧
       (playFrom events t fuel level cumulative s).1.spinErrorCount = 0) := by
  intro fuel
  induction fuel with
  | zero => intro level cumulative s; right; simp [playFrom]
  | succ f ih =>
    intro level cumulative s
    cases hev : events level with
    | thrown => left; simp [playFrom, hev]
    | depositFail => left; simp [playFrom, hev]
    | spinFail => left; simp [playFrom, hev]
    | spun r =>
      by_cases hw : isWin r t = true
      · right; simp [playFrom, hev, hw]
      · have hw2 : isWin r t = false := by
          cases h : isWin r t
          · rfl
          · exact absurd h hw
        have hrec : playFrom events t (f + 1) level cumulative s =
            playFrom events t f (level + 1) (cumulative + stakeAt level) s := by
          simp [playFrom, hev, hw2]
        rw [hrec]
        exact ih (level + 1) (cumulative + stakeAt level) s

/-- One ladder walk changes the error counters in exactly one of four
ways: both reset to 0 (win or completed loss), `verificationErrorCount`
up by one (deposit verification failure), `spinErrorCount` up by one
(spin failure), or both unchanged (exception reaching the cycle-level
catch). -/
theorem playFrom_counter_delta (events : Nat → StepEvent) (t : Target) :
    ∀ (fuel level : Nat) (cumulative : Int) (s : RState),
      ((playFrom events t fuel level cumulative s).1.verificationErrorCount = 0 ∧
       (playFrom events t fuel level cumulative s).1.spinErrorCount = 0) ∨
      ((playFrom events t fuel level cumulative s).1.verificationErrorCount =
          s.verificationErrorCount + 1 ∧
       (playFrom events t fuel level cumulative s).1.spinErrorCount =
          s.spinErrorCount) ∨
      ((playFrom events t fuel level cumulative s).1.verificationErrorCount =
          s.verificationErrorCount ∧
       (playFrom events t fuel level cumulative s).1.spinErrorCount =
          s.spinErrorCount + 1) ∨
      ((playFrom events t fuel level cumulative s).1.verificationErrorCount =
          s.verificationErrorCount ∧
       (playFrom events t fuel level cumulative s).1.spinErrorCount =
          s.spinErrorCount) := by
  intro fuel
  induction fuel with
  | zero => intro level cumulative s; left; simp [playFrom]
  | succ f ih =>
    intro level cumulative s
    cases hev : events level with
    | thrown => right; right; right; simp [playFrom, hev]
    | depositFail => right; left; simp [playFrom, hev]
    | spinFail => right; right; left; simp [playFrom, hev]
    | spun r =>
      by_cases hw : isWin r t = true
      · left; simp [playFrom, hev, hw]
      · have hw2 : isWin r t = false := by
          cases h : isWin r t
          · rfl
          · exact absurd h hw
        have hrec : playFrom events t (f + 1) level cumulative s =
            playFrom events t f (level + 1) (cumulative + stakeAt level) s := by
          simp [playFrom, hev, hw2]
        rw [hrec]
        exact ih (level + 1) (cumulative + stakeAt level) s

/-- The verification counter after `handleSeedAndRefresh`: reset exactly
when it had reached its threshold 5, otherwise untouched. -/
theorem handle_verification_counter (s : RState) (res : CycleOutcome) :
    (handleSeedAndRefresh s res).1.verificationErrorCount =
      if 5 ≤ s.verificationErrorCount then 0 else s.verificationErrorCount := by
  by_cases hv : 5 ≤ s.verificationErrorCount
  · simp [handleSeedAndRefresh, hv]
  · by_cases hs : 3 ≤ s.spinErrorCount
    · simp [handleSeedAndRefresh, hv, hs]
    · cases res with
      | win lvl =>
        by_cases hc : 3 ≤ lvl ∧ streakBroken s.prevWinLevel
        · simp [handleSeedAndRefresh, hv, hs, hc]
        · simp [handleSeedAndRefresh, hv, hs, hc]
      | loss => simp [handleSeedAndRefresh, hv, hs]
      | error => simp [handleSeedAndRefresh, hv, hs]

/-- The spin counter after `handleSeedAndRefresh`: reset exactly when it
had reached its threshold 3 and the verification trip did not run first,
otherwise untouched. -/
theorem handle_spin_counter (s : RState) (res : CycleOutcome) :
    (handleSeedAndRefresh s res).1.spinErrorCount =
      if 5 ≤ s.verificationErrorCount then s.spinErrorCount
      else if 3 ≤ s.spinErrorCount then 0 else s.spinErrorCount := by
  by_cases hv : 5 ≤ s.verificationErrorCount
  · simp [handleSeedAndRefresh, hv]
  · by_cases hs : 3 ≤ s.spinErrorCount
    · simp [handleSeedAndRefresh, hv, hs]
    · cases res with
      | win lvl =>
        by_cases hc : 3 ≤ lvl ∧ streakBroken s.prevWinLevel
        · simp [handleSeedAndRefresh, hv, hs, hc]
        · simp [handleSeedAndRefresh, hv, hs, hc]
      | loss => simp [handleSeedAndRefresh, hv, hs]
      | error => simp [handleSeedAndRefresh, hv, hs]

/-! ## Claim theorems -/

/-- C1: for every ladder walk and every level `i` in [0, 13], a win at
level `i` after losing levels `0..i-1` adds exactly the base stake (100
minor units) to the running PnL, independently of `i`; the engine gets
there by computing `2 * stakeAt i` minus the cumulative stake
`100 * (2^(i+1) - 1)`, with `stakeAt i = 100 * 2^i`. -/
theorem C1_martingale_full_recovery (i : Nat) (hi : i ≤ 13)
    (events : Nat → StepEvent) (t : Target) (s : RState)
    (hlose : ∀ j, j < i → ∃ r, events j = .spun r ∧ isWin r t = false)
    (hwin : ∃ r, events i = .spun r ∧ isWin r t = true) :
    (playOneCycle events t s).1.pnl = s.pnl + 100 ∧
    (playOneCycle events t s).2 = .win i ∧
    stakeAt i = 100 * 2 ^ i ∧
    cumStake 0 i = 100 * (2 ^ (i + 1) - 1) ∧
    calculateCycleProfit (some i) (100 * (2 ^ (i + 1) - 1)) = 100 := by
  have hwalk := playFrom_lose_then_win events t i 14 0 0
    { s with cycleCount := s.cycleCount + 1 } (by omega)
    (by intro j h1 h2; exact hlose j (by omega))
    (by simpa using hwin)
  have hprofit := calculateCycleProfit_cumStake i (by omega)
  have hcum := cumStake_from_zero i (by omega)
  rw [playOneCycle, hwalk]
  refine ⟨?_, by simp, stakeAt_eq i (by omega), hcum, ?_⟩
  · simp [hprofit]
  · rw [← hcum]; exact hprofit

/-- Witness for C1 at the spec's end-to-end scenario B: three losing
levels (black result 2 against a red bet) then a red win (result 1) at
level 3 yield a profit of exactly 100 from a zero starting PnL. -/
theorem C1_martingale_full_recovery_witness :
    (playOneCycle
      (fun j => if j < 3 then .spun (some 2) else .spun (some 1))
      .red
      { verificationErrorCount := 0, spinErrorCount := 0,
        prevWinLevel := none, pnl := 0, cycleCount := 0 }).1.pnl = 0 + 100 :=
  (C1_martingale_full_recovery 3 (by decide) _ .red _
    (fun j hj => ⟨some 2, by simp [hj], by decide⟩)
    ⟨some 1, by simp, by decide⟩).1

/-- C2 counterexample: from a fresh streak state (`prevWinLevel = null`,
error counters 0), a win at level 3 fires the streak rotation, and —
because the fired rotation resets `prevWinLevel` to null — an immediately
following second win at level 3 fires it again: two consecutive wins
both at level ≥ 3 for which the rotation fires twice, against the
claim's "does not fire for two consecutive wins both at level >= 3". -/
theorem C2_counterexample :
    (handleSeedAndRefresh
      { verificationErrorCount := 0, spinErrorCount := 0,
        prevWinLevel := none, pnl := 0, cycleCount := 0 } (.win 3)).2 = true ∧
    (handleSeedAndRefresh
      (handleSeedAndRefresh
        { verificationErrorCount := 0, spinErrorCount := 0,
          prevWinLevel := none, pnl := 0, cycleCount := 0 } (.win 3)).1
      (.win 3)).2 = true := by
  decide

/-- C2 (amended): with both error counters below their thresholds, the
streak rotation fires if and only if the cycle is a win at level ≥ 3 and
the win level recorded BEFORE this cycle's outcome is committed is null
or < 3; and it does not fire on the second of two consecutive wins at
level ≥ 3 PROVIDED the first one did not itself fire the rotation (a
fired rotation resets the recorded level to null, so a high win straight
after a rotation fires again — the unconditional "never twice in a row"
of the original claim fails, see the counterexample). -/
theorem C2_streak_rotation (s : RState) (res : CycleOutcome)
    (hv : s.verificationErrorCount < 5) (hs : s.spinErrorCount < 3) :
    ((handleSeedAndRefresh s res).2 = true ↔
      ∃ lvl, res = .win lvl ∧ 3 ≤ lvl ∧
        (s.prevWinLevel = none ∨ ∃ p, s.prevWinLevel = some p ∧ p < 3)) ∧
    (∀ lvl1 lvl2, 3 ≤ lvl1 → 3 ≤ lvl2 →
      (handleSeedAndRefresh s (.win lvl1)).2 = false →
      (handleSeedAndRefresh (handleSeedAndRefresh s (.win lvl1)).1
        (.win lvl2)).2 = false) := by
  have hv2 : ¬ 5 ≤ s.verificationErrorCount := by omega
  have hs2 : ¬ 3 ≤ s.spinErrorCount := by omega
  constructor
  · cases res with
    | win lvl =>
      by_cases hc : 3 ≤ lvl ∧ streakBroken s.prevWinLevel
      · simp only [handleSeedAndRefresh, if_neg hv2, if_neg hs2, if_pos hc]
        simp only [true_iff]
        refine ⟨lvl, rfl, hc.1, ?_⟩
        have := hc.2
        cases hp : s.prevWinLevel with
        | none => exact Or.inl rfl
        | some p =>
          right
          refine ⟨p, rfl, ?_⟩
          rw [hp] at this
          simpa [streakBroken] using this
      · simp only [handleSeedAndRefresh, if_neg hv2, if_neg hs2, if_neg hc]
        simp only [Bool.false_eq_true, false_iff]
        rintro ⟨lvl2, heq, h3, hprev⟩
        cases heq
        apply hc
        refine ⟨h3, ?_⟩
        cases hprev with
        | inl h => simp [h, streakBroken]
        | inr h =>
          obtain ⟨p, hp, hplt⟩ := h
          simp [hp, streakBroken, hplt]
    | loss =>
      simp [handleSeedAndRefresh, if_neg hv2, if_neg hs2]
    | error =>
      simp [handleSeedAndRefresh, if_neg hv2, if_neg hs2]
  · intro lvl1 lvl2 h1 h2 hfirst
    by_cases hc : 3 ≤ lvl1 ∧ streakBroken s.prevWinLevel
    · simp [handleSeedAndRefresh, if_neg hv2, if_neg hs2, if_pos hc] at hfirst
    · have hupd : (handleSeedAndRefresh s (.win lvl1)).1 =
          { s with prevWinLevel := some lvl1 } := by
        simp [handleSeedAndRefresh, if_neg hv2, if_neg hs2, if_neg hc]
      rw [hupd]
      have hnc : ¬ (3 ≤ lvl2 ∧ streakBroken (some lvl1)) := by
        rintro ⟨-, hb⟩
        simp [streakBroken] at hb
        omega
      simp [handleSeedAndRefresh, if_neg hv2, if_neg hs2, hnc]

/-- Witness for C2 (amended): with counters 0 and a previously recorded
win at level 4, a win at level 5 does not fire (streak continues), via
the iff read right-to-left. -/
theorem C2_streak_rotation_witness :
    (handleSeedAndRefresh
      { verificationErrorCount := 0, spinErrorCount := 0,
        prevWinLevel := some 4, pnl := 0, cycleCount := 0 } (.win 5)).2 = false := by
  have h := (C2_streak_rotation
    { verificationErrorCount := 0, spinErrorCount := 0,
      prevWinLevel := some 4, pnl := 0, cycleCount := 0 } (.win 5)
    (by decide) (by decide)).1
  cases hb : (handleSeedAndRefresh
      { verificationErrorCount := 0, spinErrorCount := 0,
        prevWinLevel := some 4, pnl := 0, cycleCount := 0 } (.win 5)).2
  · rfl
  · exfalso
    obtain ⟨lvl, heq, -, hprev⟩ := h.mp hb
    cases heq
    rcases hprev with h4 | ⟨p, hp, hplt⟩
    · exact Option.noConfusion h4
    · cases Option.some.injEq .. ▸ hp
      omega

/-- C3: the corrective trip (seed change plus forced refresh, the
category's counter reset to 0, `prevWinLevel` reset to null) occurs
exactly when a category's counter reaches its threshold (5 for deposit
verification, 3 for spin); below both thresholds no counter is touched
by `handleSeedAndRefresh`; any cycle that wins or completes through
level 13 resets both counters to 0; and starting below the thresholds,
one cycle followed by `handleSeedAndRefresh` always lands back below
both thresholds (the trip fires the moment a threshold is reached). -/
theorem C3_error_budget_trip (s : RState) (res : CycleOutcome) :
    (5 ≤ s.verificationErrorCount →
      handleSeedAndRefresh s res =
        ({ s with verificationErrorCount := 0, prevWinLevel := none }, true)) ∧
    (s.verificationErrorCount < 5 → 3 ≤ s.spinErrorCount →
      handleSeedAndRefresh s res =
        ({ s with spinErrorCount := 0, prevWinLevel := none }, true)) ∧
    (s.verificationErrorCount < 5 → s.spinErrorCount < 3 →
      (handleSeedAndRefresh s res).1.verificationErrorCount =
        s.verificationErrorCount ∧
      (handleSeedAndRefresh s res).1.spinErrorCount = s.spinErrorCount) ∧
    (∀ (events : Nat → StepEvent) (t : Target) (s0 : RState),
      ((playOneCycle events t s0).2 = .loss ∨
        ∃ l, (playOneCycle events t s0).2 = .win l) →
      (playOneCycle events t s0).1.verificationErrorCount = 0 ∧
      (playOneCycle events t s0).1.spinErrorCount = 0) ∧
    (∀ (events : Nat → StepEvent) (t : Target) (s0 : RState),
      s0.verificationErrorCount < 5 → s0.spinErrorCount < 3 →
      (handleSeedAndRefresh (playOneCycle events t s0).1
        (playOneCycle events t s0).2).1.verificationErrorCount < 5 ∧
      (handleSeedAndRefresh (playOneCycle events t s0).1
        (playOneCycle events t s0).2).1.spinErrorCount < 3) := by
  refine ⟨?_, ?_, ?_, ?_, ?_⟩
  · intro hv
    simp [handleSeedAndRefresh, hv]
  · intro hv hs
    have hv2 : ¬ 5 ≤ s.verificationErrorCount := by omega
    simp [handleSeedAndRefresh, hv2, hs]
  · intro hv hs
    rw [handle_verification_counter, handle_spin_counter]
    have hv2 : ¬ 5 ≤ s.verificationErrorCount := by omega
    have hs2 : ¬ 3 ≤ s.spinErrorCount := by omega
    simp [hv2, hs2]
  · intro events t s0 hsucc
    rcases playFrom_success_resets events t 14 0 0
        { s0 with cycleCount := s0.cycleCount + 1 } with herr | hreset
    · exfalso
      rcases hsucc with hl | ⟨l, hw⟩
      · rw [playOneCycle] at hl
        rw [hl] at herr
        exact CycleOutcome.noConfusion herr
      · rw [playOneCycle] at hw
        rw [hw] at herr
        exact CycleOutcome.noConfusion herr
    · exact hreset
  · intro events t s0 hv hs
    rw [handle_verification_counter, handle_spin_counter, playOneCycle]
    have e1 : ({ s0 with cycleCount := s0.cycleCount + 1 } : RState).verificationErrorCount
        = s0.verificationErrorCount := rfl
    have e2 : ({ s0 with cycleCount := s0.cycleCount + 1 } : RState).spinErrorCount
        = s0.spinErrorCount := rfl
    rcases playFrom_counter_delta events t 14 0 0
        { s0 with cycleCount := s0.cycleCount + 1 }
      with ⟨h1, h2⟩ | ⟨h1, h2⟩ | ⟨h1, h2⟩ | ⟨h1, h2⟩ <;>
      (try rw [e1] at h1) <;> (try rw [e2] at h2) <;>
      rw [h1, h2] <;> split_ifs <;> omega

/-- Witness for C3: a state whose deposit-verification counter sits at
its threshold 5 trips on the next `handleSeedAndRefresh` call: counter
back to 0, `prevWinLevel` cleared, refresh reported. -/
theorem C3_error_budget_trip_witness :
    handleSeedAndRefresh
      { verificationErrorCount := 5, spinErrorCount := 0,
        prevWinLevel := some 1, pnl := 0, cycleCount := 7 } .error =
      ({ verificationErrorCount := 0, spinErrorCount := 0,
         prevWinLevel := none, pnl := 0, cycleCount := 7 }, true) :=
  (C3_error_budget_trip
    { verificationErrorCount := 5, spinErrorCount := 0,
      prevWinLevel := some 1, pnl := 0, cycleCount := 7 } .error).1 (by decide)

/-- C5 counterexample: with fresh counters, an exception reaching the
cycle-level catch block at level 0 leaves `verificationErrorCount` and
`spinErrorCount` at 0 while producing the error outcome, whereas the
logical failure of the same step (deposit verification returning -1)
increments `verificationErrorCount` to 1: the two increments differ,
against the claim that they are identical. -/
theorem C5_counterexample :
    (playOneCycle (fun _ => .thrown) .red
      { verificationErrorCount := 0, spinErrorCount := 0,
        prevWinLevel := none, pnl := 0, cycleCount := 0 }).1.verificationErrorCount = 0 ∧
    (playOneCycle (fun _ => .thrown) .red
      { verificationErrorCount := 0, spinErrorCount := 0,
        prevWinLevel := none, pnl := 0, cycleCount := 0 }).1.spinErrorCount = 0 ∧
    (playOneCycle (fun _ => .thrown) .red
      { verificationErrorCount := 0, spinErrorCount := 0,
        prevWinLevel := none, pnl := 0, cycleCount := 0 }).2 = .error ∧
    (playOneCycle (fun _ => .depositFail) .red
      { verificationErrorCount := 0, spinErrorCount := 0,
        prevWinLevel := none, pnl := 0, cycleCount := 0 }).1.verificationErrorCount = 1 := by
  decide

/-- C5 (amended): a technical exception that escapes a step and is caught
by the cycle-level exception handler of `playOneCycle` leaves the module
state — both category error counters included — completely unchanged and
yields the error outcome; it does NOT increment the relevant category's
counter the way the step's logical failure does (only exceptions caught
inside the step helpers and converted into the helpers' -1/false return
codes feed the counters). -/
theorem C5_exception_skips_counters (events : Nat → StepEvent) (t : Target)
    (fuel level : Nat) (cumulative : Int) (s : RState)
    (h : events level = .thrown) :
    playFrom events t (fuel + 1) level cumulative s = (s, .error) := by
  simp [playFrom, h]

/-- Witness for C5 (amended): an exception at level 0 of a fresh cycle
walk returns the state untouched with the error outcome. -/
theorem C5_exception_skips_counters_witness :
    playFrom (fun _ => .thrown) .red 14 0 0
      { verificationErrorCount := 2, spinErrorCount := 1,
        prevWinLevel := some 2, pnl := 300, cycleCount := 9 } =
      ({ verificationErrorCount := 2, spinErrorCount := 1,
         prevWinLevel := some 2, pnl := 300, cycleCount := 9 }, .error) :=
  C5_exception_skips_counters (fun _ => .thrown) .red 13 0 0 _ rfl

/-- C4: the pause controller arms (pause flag set, arming balance
recorded, machine in the withdrawal-pause branch) exactly on a
PLAYING_ROULETTE tick whose observed balance reaches `WITHDRAWAL_TRIGGER`
= 16.6383 (below it the tick leaves the state untouched, so the first
reaching tick arms); while paused it stays armed, control variables
untouched, under any observed drop smaller than
`WITHDRAWAL_DETECTION_THRESHOLD` = 10; it disarms only on a drop of at
least 10, and the disarm-plus-resume pair clears the pause flag, clears
the recorded arming balance, and resets the RoulettePlayer cumulative
PnL to 0. -/
theorem C4_pause_controller :
    (∀ (st : OrchState) (read1 read2 : BalanceRead),
      (checkBalance read1 < WITHDRAWAL_TRIGGER →
        playingWithdrawalCheck st read1 read2 = st) ∧
      (WITHDRAWAL_TRIGGER ≤ checkBalance read1 →
        playingWithdrawalCheck st read1 read2 =
          { st with
            ctl := { st.ctl with
                     withdrawalThresholdBalance := some (checkBalance read2),
                     systemPausedForWithdrawal := true },
            mstate := .WITHDRAWAL_THRESHOLD_REACHED })) ∧
    (∀ (st : OrchState) (armBalance : Rat) (m : Bool) (read : BalanceRead),
      st.ctl = ⟨some armBalance, true, m⟩ →
      armBalance - checkBalance read < WITHDRAWAL_DETECTION_THRESHOLD →
      pausedForWithdrawalTick st read =
        { st with mstate := .PAUSED_FOR_MANUAL_WITHDRAWAL }) ∧
    (∀ (st : OrchState) (armBalance : Rat) (m : Bool) (read : BalanceRead),
      st.ctl = ⟨some armBalance, true, m⟩ →
      WITHDRAWAL_DETECTION_THRESHOLD ≤ armBalance - checkBalance read →
      pausedForWithdrawalTick st read =
        { st with ctl := ⟨none, false, true⟩,
                  mstate := .RESUMING_AFTER_WITHDRAWAL } ∧
      resumingAfterWithdrawalTick (pausedForWithdrawalTick st read) =
        { st with ctl := ⟨none, false, true⟩,
                  player := resetPnL st.player,
                  mstate := .PLAYING_ROULETTE } ∧
      (resetPnL st.player).pnl = 0) := by
  refine ⟨?_, ?_, ?_⟩
  · intro st read1 read2
    constructor
    · intro hlt
      have h : ¬ isReadyForWithdrawal read1 = true := by
        simp [isReadyForWithdrawal]
        exact hlt
      simp [playingWithdrawalCheck, h]
    · intro hge
      have h : isReadyForWithdrawal read1 = true := by
        simp [isReadyForWithdrawal]
        exact hge
      simp [playingWithdrawalCheck, h]
  · intro st armBalance m read hctl hsmall
    have h : ¬ WITHDRAWAL_DETECTION_THRESHOLD ≤ armBalance - checkBalance read := by
      exact not_le.mpr hsmall
    simp [pausedForWithdrawalTick, detectManualWithdrawal, hctl, h]
  · intro st armBalance m read hctl hbig
    have h1 : pausedForWithdrawalTick st read =
        { st with ctl := ⟨none, false, true⟩,
                  mstate := .RESUMING_AFTER_WITHDRAWAL } := by
      simp [pausedForWithdrawalTick, detectManualWithdrawal, hctl, hbig]
    refine ⟨h1, ?_, rfl⟩
    rw [h1]
    rfl

/-- Witness for C4, following the spec's end-to-end scenario D: an
unarmed playing tick reading balance 16.6383 arms and records 16.6383;
a paused tick reading 12.0 (drop 4.6383 < 10) stays paused; a paused
tick reading 4.0 (drop 12.6383 ≥ 10) disarms, and the resume tick clears
everything and zeroes the player PnL. -/
theorem C4_pause_controller_witness :
    (playingWithdrawalCheck
        ⟨.PLAYING_ROULETTE, ⟨none, false, false⟩,
          ⟨0, 0, none, 500, 3⟩⟩
        (.ok (166383 / 10000)) (.ok (166383 / 10000)) =
      ⟨.WITHDRAWAL_THRESHOLD_REACHED, ⟨some (166383 / 10000), true, false⟩,
        ⟨0, 0, none, 500, 3⟩⟩) ∧
    (pausedForWithdrawalTick
        ⟨.PAUSED_FOR_MANUAL_WITHDRAWAL, ⟨some (166383 / 10000), true, false⟩,
          ⟨0, 0, none, 500, 3⟩⟩
        (.ok 12) =
      ⟨.PAUSED_FOR_MANUAL_WITHDRAWAL, ⟨some (166383 / 10000), true, false⟩,
        ⟨0, 0, none, 500, 3⟩⟩) ∧
    (resumingAfterWithdrawalTick
        (pausedForWithdrawalTick
          ⟨.PAUSED_FOR_MANUAL_WITHDRAWAL, ⟨some (166383 / 10000), true, false⟩,
            ⟨0, 0, none, 500, 3⟩⟩
          (.ok 4)) =
      ⟨.PLAYING_ROULETTE, ⟨none, false, true⟩, ⟨0, 0, none, 0, 3⟩⟩) := by
  refine ⟨?_, ?_, ?_⟩
  · exact (C4_pause_controller.1 _ _ _).2 (by norm_num [checkBalance, WITHDRAWAL_TRIGGER])
  · exact C4_pause_controller.2.1 _ (166383 / 10000) false _ rfl
      (by norm_num [checkBalance, WITHDRAWAL_DETECTION_THRESHOLD])
  · exact (C4_pause_controller.2.2 _ (166383 / 10000) false _ rfl
      (by norm_num [checkBalance, WITHDRAWAL_DETECTION_THRESHOLD])).2.1

/-- C6: in the NEEDS_LOGIN state, `signIn()` resolving false (logical
login failure) routes to NEEDS_SIGNUP, `signIn()` throwing (technical
failure) routes to ERROR, and NEEDS_SIGNUP is reached for the logical
failure alone. -/
theorem C6_login_failure_routing :
    nextStateAfterLogin .failure = .NEEDS_SIGNUP ∧
    nextStateAfterLogin .threw = .ERROR ∧
    ∀ r, nextStateAfterLogin r = .NEEDS_SIGNUP ↔ r = .failure := by
  refine ⟨rfl, rfl, ?_⟩
  intro r
  cases r <;> decide

/-- C7: the recurring-claim gate returns true exactly when no prior claim
is recorded or at least 62 minutes (62*60*1000 ms) have elapsed since the
recorded claim. -/
theorem C7_faucet_gate (lastFaucetClaimTime : Option Int) (now : Int) :
    isTimeForFaucetClaim lastFaucetClaimTime now = true ↔
      (lastFaucetClaimTime = none ∨
        ∃ t, lastFaucetClaimTime = some t ∧ 62 * 60 * 1000 ≤ now - t) := by
  cases lastFaucetClaimTime with
  | none => simp [isTimeForFaucetClaim]
  | some t => simp [isTimeForFaucetClaim, FAUCET_INTERVAL_MS]

/-- C8 counterexample: a checkpoint whose `lastFaucetClaimTime` is the
timestamp 0 (a falsy number in JavaScript) is serialized to null by
`t ? new Date(t).toISOString() : null`, so save-then-load returns null
instead of the original `some 0`: the round trip is NOT the identity on
every checkpoint value. -/
theorem C8_counterexample :
    (loadStateFromFile (saveStateToFile
      { isInitialSetupComplete := false, lastFaucetClaimTime := some 0,
        verificationAttempts := 0, lastBonusClaimTime := none,
        rouletteCycles := 0, totalPnL := 0 } none false)).lastFaucetClaimTime
      = none ∧
    ({ isInitialSetupComplete := false, lastFaucetClaimTime := some 0,
       verificationAttempts := 0, lastBonusClaimTime := none,
       rouletteCycles := 0, totalPnL := 0 } : AppState).lastFaucetClaimTime
      = some 0 :=
  ⟨rfl, rfl⟩

/-- C8 (amended): saving the checkpoint and loading it back reproduces
`isInitialSetupComplete`, `lastFaucetClaimTime` (ISO string round trip),
`verificationAttempts`, `rouletteCycles` and `totalPnL` identically,
provided `lastFaucetClaimTime` is not the (falsy, practically
unreachable) timestamp 0, which the save truthiness test collapses to
null. -/
theorem C8_checkpoint_roundtrip (a : AppState)
    (withdrawalThresholdBalance : Option Rat)
    (systemPausedForWithdrawal : Bool)
    (h : a.lastFaucetClaimTime ≠ some 0) :
    (loadStateFromFile (saveStateToFile a withdrawalThresholdBalance
        systemPausedForWithdrawal)).isInitialSetupComplete
      = a.isInitialSetupComplete ∧
    (loadStateFromFile (saveStateToFile a withdrawalThresholdBalance
        systemPausedForWithdrawal)).lastFaucetClaimTime
      = a.lastFaucetClaimTime ∧
    (loadStateFromFile (saveStateToFile a withdrawalThresholdBalance
        systemPausedForWithdrawal)).verificationAttempts
      = a.verificationAttempts ∧
    (loadStateFromFile (saveStateToFile a withdrawalThresholdBalance
        systemPausedForWithdrawal)).rouletteCycles
      = a.rouletteCycles ∧
    (loadStateFromFile (saveStateToFile a withdrawalThresholdBalance
        systemPausedForWithdrawal)).totalPnL
      = a.totalPnL := by
  refine ⟨rfl, ?_, rfl, rfl, rfl⟩
  show parseClaimTime (serializeClaimTime a.lastFaucetClaimTime)
    = a.lastFaucetClaimTime
  cases ht : a.lastFaucetClaimTime with
  | none => rfl
  | some v =>
    have hv : v ≠ 0 := by
      intro h0
      exact h (by rw [ht, h0])
    simp [serializeClaimTime, parseClaimTime, toISOString, dateGetTime, hv]

/-- Witness for C8 (amended): a concrete checkpoint with a nonzero claim
timestamp round-trips to identical field values. -/
theorem C8_checkpoint_roundtrip_witness :
    (loadStateFromFile (saveStateToFile
      { isInitialSetupComplete := true, lastFaucetClaimTime := some 1700000000000,
        verificationAttempts := 2, lastBonusClaimTime := none,
        rouletteCycles := 41, totalPnL := 700 } (some 3) false)).lastFaucetClaimTime
      = some 1700000000000 :=
  (C8_checkpoint_roundtrip
    { isInitialSetupComplete := true, lastFaucetClaimTime := some 1700000000000,
      verificationAttempts := 2, lastBonusClaimTime := none,
      rouletteCycles := 41, totalPnL := 700 } (some 3) false (by decide)).2.1

/-- C9: for both betting targets, a zero result and an unreadable (null)
result are evaluated as losses by `isWin`, and a level where the spin
produced such a result advances the ladder walk to the next level with
the stake of the lost level added to the cumulative cost. -/
theorem C9_zero_and_null_lose :
    (∀ t : Target, isWin none t = false ∧ isWin (some 0) t = false) ∧
    (∀ (events : Nat → StepEvent) (t : Target) (fuel level : Nat)
        (cumulative : Int) (s : RState),
      events level = .spun (some 0) ∨ events level = .spun none →
      playFrom events t (fuel + 1) level cumulative s =
        playFrom events t fuel (level + 1) (cumulative + stakeAt level) s) := by
  constructor
  · intro t
    exact ⟨rfl, rfl⟩
  · intro events t fuel level cumulative s h
    rcases h with h | h <;> simp [playFrom, h, isWin]

/-- Witness for C9: on a fresh walk betting red, a zero at level 0 moves
the walk to level 1 with cumulative cost 100. -/
theorem C9_zero_and_null_lose_witness :
    playFrom (fun _ => .spun (some 0)) .red 14 0 0
      { verificationErrorCount := 0, spinErrorCount := 0,
        prevWinLevel := none, pnl := 0, cycleCount := 1 } =
    playFrom (fun _ => .spun (some 0)) .red 13 1 (0 + stakeAt 0)
      { verificationErrorCount := 0, spinErrorCount := 0,
        prevWinLevel := none, pnl := 0, cycleCount := 1 } :=
  C9_zero_and_null_lose.2 (fun _ => .spun (some 0)) .red 13 0 0 _ (Or.inl rfl)

/-- C10: while paused for manual withdrawal with a recorded arming
balance of at least 10 TRX, a failed balance read (which `checkBalance`
converts to 0) makes `detectManualWithdrawal` compute a reduction ≥ 10
and report a withdrawal: the pause flag and arming balance are cleared
and the paused tick moves to RESUMING_AFTER_WITHDRAWAL although no
external action occurred. -/
theorem C10_read_error_false_positive (st : OrchState) (armBalance : Rat)
    (m : Bool) (hctl : st.ctl = ⟨some armBalance, true, m⟩)
    (h : WITHDRAWAL_DETECTION_THRESHOLD ≤ armBalance) :
    detectManualWithdrawal st.ctl .readError = (⟨none, false, true⟩, true) ∧
    pausedForWithdrawalTick st .readError =
      { st with ctl := ⟨none, false, true⟩,
                mstate := .RESUMING_AFTER_WITHDRAWAL } := by
  have hred : WITHDRAWAL_DETECTION_THRESHOLD ≤ armBalance - checkBalance .readError := by
    simp [checkBalance]
    exact h
  constructor
  · simp [detectManualWithdrawal, hctl, hred]
  · simp [pausedForWithdrawalTick, detectManualWithdrawal, hctl, hred]

/-- Witness for C10: paused at the arming balance 16.6383, one failed
balance read disarms the controller and triggers the resume path. -/
theorem C10_read_error_false_positive_witness :
    pausedForWithdrawalTick
      ⟨.PAUSED_FOR_MANUAL_WITHDRAWAL, ⟨some (166383 / 10000), true, false⟩,
        ⟨0, 0, none, 0, 0⟩⟩ .readError =
      ⟨.RESUMING_AFTER_WITHDRAWAL, ⟨none, false, true⟩,
        ⟨0, 0, none, 0, 0⟩⟩ :=
  (C10_read_error_false_positive _ (166383 / 10000) false rfl
    (by norm_num [WITHDRAWAL_DETECTION_THRESHOLD])).2

end Tronpick
